/-
Verification of the AI service of the blog backend (internal/ai/service.go).

The development shallowly embeds the service layer:
  * a small JSON value type and parser modelling the behaviour of Go's
    encoding/json for the payload shapes this service exchanges,
  * Go's sort.Slice algorithm (pdqsort, as in Go >= 1.19), embedded
    operationally, since the retrieval step of ChatStream depends on the
    exact permutation it produces,
  * the repository / task-queue collaborators as an explicit world state
    with injectable faults,
  * the service operations OpenAIMode, DisableOpenAIMode, ChatStream,
    StreamAIResponse translated statement by statement.
-/
import Mathlib

/-! ## String helpers modelling the Go standard library -/

/-- Model of the white-space predicate used by bytes.TrimSpace (ASCII range). -/
def isSpaceChar (c : Char) : Bool :=
  c = ' ' || c = '\t' || c = '\n' || c = '\x0b' || c = '\x0c' || c = '\r'

/-- Model of bytes.TrimSpace: strip leading and trailing white space. -/
def trimSpace (s : String) : String :=
  String.mk (((s.data.dropWhile isSpaceChar).reverse.dropWhile isSpaceChar).reverse)

/-! ## JSON values and a parser modelling encoding/json

The service calls json.Unmarshal on two payload shapes: the Ask request
body (a struct with one string field) and each streamed generation event
(a map with a nested message object).  The parser below models
encoding/json's grammar for the object / array / string / number / literal
forms; numbers are modelled as rationals. -/

inductive Json where
  | null : Json
  | jbool : Bool → Json
  | num : ℚ → Json
  | str : String → Json
  | arr : List Json → Json
  | obj : List (String × Json) → Json
  deriving Repr

/-- Decimal digit test. -/
def isDigitChar (c : Char) : Bool := '0' ≤ c && c ≤ '9'

/-- Hex digit value, if any (on code points: 0-9, a-f, A-F). -/
def hexVal (c : Char) : Option Nat :=
  let n := c.toNat
  if 48 ≤ n ∧ n ≤ 57 then some (n - 48)
  else if 97 ≤ n ∧ n ≤ 102 then some (n - 87)
  else if 65 ≤ n ∧ n ≤ 70 then some (n - 55)
  else none

/-- Skip JSON white space. -/
def skipWs (cs : List Char) : List Char :=
  cs.dropWhile (fun c => c = ' ' || c = '\t' || c = '\n' || c = '\r')

/-- Parse the body of a JSON string (after the opening quote), handling the
escape sequences encoding/json accepts; returns the string and the rest. -/
def parseStringBody : List Char → Option (String × List Char)
  | [] => none
  | '"' :: rest => some ("", rest)
  | '\\' :: esc => match esc with
    | [] => none
    | 'u' :: h1 :: h2 :: h3 :: h4 :: rest =>
      match hexVal h1, hexVal h2, hexVal h3, hexVal h4 with
      | some a, some b, some c, some d =>
        match parseStringBody rest with
        | some (s, rem) =>
          some (String.mk (Char.ofNat (((a * 16 + b) * 16 + c) * 16 + d) :: s.data), rem)
        | none => none
      | _, _, _, _ => none
    | e :: rest =>
      let dec : Option Char :=
        if e = '"' then some '"'
        else if e = '\\' then some '\\'
        else if e = '/' then some '/'
        else if e = 'n' then some '\n'
        else if e = 't' then some '\t'
        else if e = 'r' then some '\r'
        else if e = 'b' then some '\x08'
        else if e = 'f' then some '\x0c'
        else none
      match dec with
      | none => none
      | some c => match parseStringBody rest with
        | some (s, rem) => some (String.mk (c :: s.data), rem)
        | none => none
  | c :: rest =>
    if c.toNat < 32 then none
    else match parseStringBody rest with
      | some (s, rem) => some (String.mk (c :: s.data), rem)
      | none => none

/-- Read a run of decimal digits as a natural number; fails on no digit. -/
def parseDigits : List Char → Option (Nat × Nat × List Char)
  | c :: rest =>
    if isDigitChar c then
      match parseDigits rest with
      | some (v, n, rem) => some ((c.toNat - '0'.toNat) * 10 ^ n + v, n + 1, rem)
      | none => some (c.toNat - '0'.toNat, 1, rest)
    else none
  | [] => none

/-- Parse a JSON number (sign, integer part, optional fraction and exponent)
as a rational. -/
def parseNumber (cs : List Char) : Option (ℚ × List Char) :=
  let (neg, cs1) := match cs with
    | '-' :: rest => (true, rest)
    | _ => (false, cs)
  match parseDigits cs1 with
  | none => none
  | some (ip, _, cs2) =>
    let (mant, scale, cs3) := match cs2 with
      | '.' :: cs2a =>
        match parseDigits cs2a with
        | some (fp, fn, cs2b) => ((ip * 10 ^ fn + fp : ℚ), (fn : ℤ), cs2b)
        | none => ((ip : ℚ), (0 : ℤ), ('.' :: cs2a))
      | _ => ((ip : ℚ), (0 : ℤ), cs2)
    let (expo, cs4) := match cs3 with
      | 'e' :: cs3a | 'E' :: cs3a =>
        match cs3a with
        | '+' :: cs3b => match parseDigits cs3b with
          | some (ev, _, cs3c) => ((ev : ℤ), cs3c)
          | none => (0, cs3a)
        | '-' :: cs3b => match parseDigits cs3b with
          | some (ev, _, cs3c) => (-(ev : ℤ), cs3c)
          | none => (0, cs3a)
        | _ => match parseDigits cs3a with
          | some (ev, _, cs3c) => ((ev : ℤ), cs3c)
          | none => (0, cs3)
      | _ => (0, cs3)
    let mag : ℚ := mant * (10 : ℚ) ^ (expo - scale)
    some (if neg then -mag else mag, cs4)

/-- What one step of the JSON parser is asked to produce: a value, the
member list of an object, or the element list of an array.  Merging the
three grammar productions into one structurally recursive function keeps
the parser reducible by the kernel. -/
inductive PMode where
  | val | fields | elems

/-- The production returned by a parser step (matching the mode). -/
inductive PRes where
  | val : Json → PRes
  | fields : List (String × Json) → PRes
  | elems : List Json → PRes

/-- Parse one JSON production; the fuel bounds the nesting-driven
recursion. -/
def parseCore : Nat → PMode → List Char → Option (PRes × List Char)
  | 0, _, _ => none
  | fuel + 1, .val, cs =>
    match skipWs cs with
    | [] => none
    | 'n' :: 'u' :: 'l' :: 'l' :: rest => some (.val .null, rest)
    | 't' :: 'r' :: 'u' :: 'e' :: rest => some (.val (.jbool true), rest)
    | 'f' :: 'a' :: 'l' :: 's' :: 'e' :: rest => some (.val (.jbool false), rest)
    | '"' :: rest =>
      match parseStringBody rest with
      | some (s, rem) => some (.val (.str s), rem)
      | none => none
    | c :: rest =>
      if c = '\x7b' then
        match skipWs rest with
        | c2 :: rest2 =>
          if c2 = '\x7d' then some (.val (.obj []), rest2)
          else
            match parseCore fuel .fields (c2 :: rest2) with
            | some (.fields fs, rem) => some (.val (.obj fs), rem)
            | _ => none
        | [] => none
      else if c = '[' then
        match skipWs rest with
        | ']' :: rest2 => some (.val (.arr []), rest2)
        | cs2 =>
          match parseCore fuel .elems cs2 with
          | some (.elems es, rem) => some (.val (.arr es), rem)
          | _ => none
      else if c = '-' || isDigitChar c then
        match parseNumber (c :: rest) with
        | some (q, rem) => some (.val (.num q), rem)
        | none => none
      else none
  | fuel + 1, .fields, cs =>
    match skipWs cs with
    | '"' :: rest =>
      match parseStringBody rest with
      | none => none
      | some (key, rem) =>
        match skipWs rem with
        | ':' :: rem2 =>
          match parseCore fuel .val rem2 with
          | some (.val v, rem3) =>
            match skipWs rem3 with
            | ',' :: rem4 =>
              match parseCore fuel .fields rem4 with
              | some (.fields fs, rem5) => some (.fields ((key, v) :: fs), rem5)
              | _ => none
            | c :: rem4 =>
              if c = '\x7d' then some (.fields [(key, v)], rem4) else none
            | [] => none
          | _ => none
        | _ => none
    | _ => none
  | fuel + 1, .elems, cs =>
    match parseCore fuel .val cs with
    | some (.val v, rem) =>
      match skipWs rem with
      | ',' :: rem2 =>
        match parseCore fuel .elems rem2 with
        | some (.elems es, rem3) => some (.elems (v :: es), rem3)
        | _ => none
      | ']' :: rem2 => some (.elems [v], rem2)
      | _ => none
    | _ => none

/-- Parse one JSON value; fuel bounds the nesting-driven recursion. -/
def parseVal (fuel : Nat) (cs : List Char) : Option (Json × List Char) :=
  match parseCore fuel .val cs with
  | some (.val j, rem) => some (j, rem)
  | _ => none

/-- Model of json.Unmarshal's top level: one value, then only white space. -/
def Json.parse (s : String) : Option Json :=
  match parseVal (sizeOf s.data + 1) s.data with
  | some (j, rem) => if skipWs rem = [] then some j else none
  | none => none

/-- Last-wins field lookup (encoding/json lets later duplicate keys win). -/
def lookupField (fields : List (String × Json)) (key : String) : Option Json :=
  match fields with
  | [] => none
  | (k, v) :: rest =>
    match lookupField rest key with
    | some r => some r
    | none => if k = key then some v else none

/-- The maps json.Unmarshal produces for a map target: a JSON object gives
its members, null gives the empty (nil) map, anything else is a type
error. -/
def jsonAsMap : Json → Option (List (String × Json))
  | .obj fields => some fields
  | .null => some []
  | _ => none

/-! ## Go's sort.Slice (pdqsort)

ChatStream sorts the scored chunks with sort.Slice, whose algorithm (since
Go 1.19) is pattern-defeating quicksort; sort.Slice makes no stability
guarantee.  The functions below are an operational embedding of
sort/zsortfunc.go: the array stands for the slice being permuted in place,
`less` is the closure handed to sort.Slice, and index accesses read the
current (partially permuted) contents exactly as lessSwap does.  The
recursion of the Go loops is bounded with explicit fuel large enough for
every call the entry point makes. -/

/-- data.Swap(i, j): swap two positions (in-bounds by construction). -/
def aswap (xs : Array α) (i j : Nat) : Array α :=
  if h1 : i < xs.size then
    if h2 : j < xs.size then xs.swap ⟨i, h1⟩ ⟨j, h2⟩ else xs
  else xs

/-- data.Less(i, j): compare the current elements at two positions. -/
def alessAt (less : α → α → Bool) (xs : Array α) (i j : Nat) : Bool :=
  match xs[i]?, xs[j]? with
  | some x, some y => less x y
  | _, _ => false

/-- Inner loop of insertionSort_func: sink element j toward a. -/
def insertionInner (less : α → α → Bool) (a : Nat) : Array α → Nat → Array α
  | xs, 0 => xs
  | xs, j + 1 =>
    if a < j + 1 && alessAt less xs (j + 1) j then
      insertionInner less a (aswap xs (j + 1) j) j
    else xs

/-- Outer loop of insertionSort_func, i running from a+1 up to b. -/
def insertionOuter (less : α → α → Bool) (a b : Nat) : Array α → Nat → Nat → Array α
  | xs, _, 0 => xs
  | xs, i, fuel + 1 =>
    if i < b then insertionOuter less a b (insertionInner less a xs i) (i + 1) fuel
    else xs

/-- insertionSort_func(data, a, b). -/
def insertionSortRange (less : α → α → Bool) (xs : Array α) (a b : Nat) : Array α :=
  insertionOuter less a b xs (a + 1) b

/-- Loop of siftDown_func starting from the given root. -/
def siftDownLoop (less : α → α → Bool) (hi first : Nat) : Array α → Nat → Nat → Array α
  | xs, _, 0 => xs
  | xs, root, fuel + 1 =>
    let child := 2 * root + 1
    if child ≥ hi then xs
    else
      let child :=
        if child + 1 < hi && alessAt less xs (first + child) (first + child + 1) then child + 1
        else child
      if !(alessAt less xs (first + root) (first + child)) then xs
      else siftDownLoop less hi first (aswap xs (first + root) (first + child)) child fuel

/-- siftDown_func(data, lo, hi, first). -/
def siftDownGo (less : α → α → Bool) (xs : Array α) (lo hi first : Nat) : Array α :=
  siftDownLoop less hi first xs lo (hi + 1)

/-- Heap-building loop of heapSort_func: i from (hi-1)/2 down to 0. -/
def heapBuild (less : α → α → Bool) (hi first : Nat) : Array α → Nat → Array α
  | xs, 0 => siftDownGo less xs 0 hi first
  | xs, i + 1 => heapBuild less hi first (siftDownGo less xs (i + 1) hi first) i

/-- Pop loop of heapSort_func: i from hi-1 down to 0. -/
def heapPop (less : α → α → Bool) (first : Nat) : Array α → Nat → Array α
  | xs, 0 => siftDownGo less (aswap xs first first) 0 0 first
  | xs, i + 1 =>
    heapPop less first (siftDownGo less (aswap xs first (first + (i + 1))) 0 (i + 1) first) i

/-- heapSort_func(data, a, b). -/
def heapSortRange (less : α → α → Bool) (xs : Array α) (a b : Nat) : Array α :=
  let hi := b - a
  if hi = 0 then xs
  else heapPop less a (heapBuild less hi a xs ((hi - 1) / 2)) (hi - 1)

/-- Scan of partition_func: advance i while i ≤ j and data.Less(i, a). -/
def scanLess (less : α → α → Bool) (xs : Array α) (a j : Nat) : Nat → Nat → Nat
  | i, 0 => i
  | i, fuel + 1 =>
    if i ≤ j && alessAt less xs i a then scanLess less xs a j (i + 1) fuel else i

/-- Scan of partition_func: retreat j while i ≤ j and not data.Less(j, a). -/
def scanNotLess (less : α → α → Bool) (xs : Array α) (a i : Nat) : Nat → Nat → Nat
  | j, 0 => j
  | j, fuel + 1 =>
    if i ≤ j && !(alessAt less xs j a) then scanNotLess less xs a i (j - 1) fuel else j

/-- Main exchange loop of partition_func. -/
def partitionLoop (less : α → α → Bool) (a n : Nat) : Array α → Nat → Nat → Nat → Array α × Nat × Bool
  | xs, _, j, 0 => (xs, j, false)
  | xs, i, j, fuel + 1 =>
    let i2 := scanLess less xs a j i n
    let j2 := scanNotLess less xs a i2 j n
    if i2 > j2 then (aswap xs j2 a, j2, false)
    else partitionLoop less a n (aswap xs i2 j2) (i2 + 1) (j2 - 1) fuel

/-- partition_func(data, a, b, pivot): returns the permuted array, the new
pivot position and whether the range was already partitioned. -/
def partitionGo (less : α → α → Bool) (xs : Array α) (a b pivot : Nat) : Array α × Nat × Bool :=
  let n := xs.size + 2
  let xs := aswap xs a pivot
  let i := scanLess less xs a (b - 1) (a + 1) n
  let j := scanNotLess less xs a i (b - 1) n
  if i > j then (aswap xs j a, j, true)
  else partitionLoop less a n (aswap xs i j) (i + 1) (j - 1) n

/-- Scan of partitionEqual_func: advance i while not data.Less(a, i). -/
def scanEqI (less : α → α → Bool) (xs : Array α) (a j : Nat) : Nat → Nat → Nat
  | i, 0 => i
  | i, fuel + 1 =>
    if i ≤ j && !(alessAt less xs a i) then scanEqI less xs a j (i + 1) fuel else i

/-- Scan of partitionEqual_func: retreat j while data.Less(a, j). -/
def scanEqJ (less : α → α → Bool) (xs : Array α) (a i : Nat) : Nat → Nat → Nat
  | j, 0 => j
  | j, fuel + 1 =>
    if i ≤ j && alessAt less xs a j then scanEqJ less xs a i (j - 1) fuel else j

/-- Exchange loop of partitionEqual_func. -/
def partitionEqualLoop (less : α → α → Bool) (a n : Nat) : Array α → Nat → Nat → Nat → Array α × Nat
  | xs, i, _, 0 => (xs, i)
  | xs, i, j, fuel + 1 =>
    let i2 := scanEqI less xs a j i n
    let j2 := scanEqJ less xs a i2 j n
    if i2 > j2 then (xs, i2)
    else partitionEqualLoop less a n (aswap xs i2 j2) (i2 + 1) (j2 - 1) fuel

/-- partitionEqual_func(data, a, b, pivot). -/
def partitionEqualGo (less : α → α → Bool) (xs : Array α) (a b pivot : Nat) : Array α × Nat :=
  let n := xs.size + 2
  partitionEqualLoop less a n (aswap xs a pivot) (a + 1) (b - 1) n

/-- Advance loop of partialInsertionSort_func: skip the sorted head. -/
def advanceSorted (less : α → α → Bool) (b : Nat) (xs : Array α) : Nat → Nat → Nat
  | i, 0 => i
  | i, fuel + 1 =>
    if i < b && !(alessAt less xs i (i - 1)) then advanceSorted less b xs (i + 1) fuel else i

/-- Left-shift loop of partialInsertionSort_func (j from i-1 down, j ≥ 1). -/
def shiftLeftLoop (less : α → α → Bool) : Array α → Nat → Array α
  | xs, 0 => xs
  | xs, j + 1 =>
    if !(alessAt less xs (j + 1) j) then xs
    else shiftLeftLoop less (aswap xs (j + 1) j) j

/-- Right-shift loop of partialInsertionSort_func (j from i+1 up to b). -/
def shiftRightLoop (less : α → α → Bool) (b : Nat) : Array α → Nat → Nat → Array α
  | xs, _, 0 => xs
  | xs, j, fuel + 1 =>
    if j < b then
      if !(alessAt less xs j (j - 1)) then xs
      else shiftRightLoop less b (aswap xs j (j - 1)) (j + 1) fuel
    else xs

/-- Step loop of partialInsertionSort_func (maxSteps = 5, shortestShifting
= 50); returns the permuted array and whether the range ended sorted. -/
def partInsertionLoop (less : α → α → Bool) (a b : Nat) : Array α → Nat → Nat → Array α × Bool
  | xs, _, 0 => (xs, false)
  | xs, i, steps + 1 =>
    let i := advanceSorted less b xs i (b + 1)
    if i = b then (xs, true)
    else if b - a < 50 then (xs, false)
    else
      let xs := aswap xs i (i - 1)
      let xs := if i - a ≥ 2 then shiftLeftLoop less xs (i - 1) else xs
      let xs := if b - i ≥ 2 then shiftRightLoop less b xs (i + 1) (b + 1) else xs
      partInsertionLoop less a b xs i steps

/-- partialInsertionSort_func(data, a, b). -/
def partInsertionGo (less : α → α → Bool) (xs : Array α) (a b : Nat) : Array α × Bool :=
  partInsertionLoop less a b xs (a + 1) 5

/-- reverseRange_func(data, a, b). -/
def reverseLoop : Array α → Nat → Nat → Nat → Array α
  | xs, _, _, 0 => xs
  | xs, i, j, fuel + 1 => if i < j then reverseLoop (aswap xs i j) (i + 1) (j - 1) fuel else xs

/-- reverseRange_func entry. -/
def reverseRangeGo (xs : Array α) (a b : Nat) : Array α :=
  reverseLoop xs a (b - 1) (xs.size + 1)

/-- One step of the xorshift generator used by breakPatterns_func
(uint64 arithmetic, modelled with explicit reduction mod 2^64). -/
def xorshiftNext (r : Nat) : Nat :=
  let r := Nat.xor r ((r <<< 13) % 2 ^ 64)
  let r := Nat.xor r (r >>> 7)
  Nat.xor r ((r <<< 17) % 2 ^ 64)

/-- bits.Len for a natural number. -/
def bitsLen (n : Nat) : Nat := if n = 0 then 0 else Nat.log2 n + 1

/-- breakPatterns_func(data, a, b): three pseudo-random swaps near the
middle, seeded deterministically with the range length. -/
def breakPatternsGo (xs : Array α) (a b : Nat) : Array α :=
  let length := b - a
  if length ≥ 8 then
    let modulus := 1 <<< bitsLen length
    let idx := a + length / 4 * 2 - 1
    let step := fun (p : Array α × Nat) (i : Nat) =>
      let st := xorshiftNext p.2
      let other := st &&& (modulus - 1)
      let other := if other ≥ length then other - length else other
      (aswap p.1 (idx - 1 + i) (a + other), st)
    let p := step (xs, length) 0
    let p := step p 1
    (step p 2).1
  else xs

/-- Hint returned by choosePivot_func. -/
inductive SortedHint where
  | increasing | decreasing | unknown
  deriving Repr, DecidableEq

/-- order2_func: order two positions by the comparator, counting swaps. -/
def order2 (less : α → α → Bool) (xs : Array α) (a b swaps : Nat) : Nat × Nat × Nat :=
  if alessAt less xs b a then (b, a, swaps + 1) else (a, b, swaps)

/-- median_func: median of three positions, counting swaps. -/
def median3 (less : α → α → Bool) (xs : Array α) (i j k swaps : Nat) : Nat × Nat :=
  let p1 := order2 less xs i j swaps
  let p2 := order2 less xs p1.2.1 k p1.2.2
  let p3 := order2 less xs p1.1 p2.1 p2.2.2
  (p3.2.1, p3.2.2)

/-- medianAdjacent_func: median of a position and its two neighbours. -/
def medianAdjacent (less : α → α → Bool) (xs : Array α) (a swaps : Nat) : Nat × Nat :=
  median3 less xs (a - 1) a (a + 1) swaps

/-- choosePivot_func(data, a, b): pivot position and sortedness hint. -/
def choosePivotGo (less : α → α → Bool) (xs : Array α) (a b : Nat) : Nat × SortedHint :=
  let l := b - a
  let i := a + l / 4 * 1
  let j := a + l / 4 * 2
  let k := a + l / 4 * 3
  if l ≥ 8 then
    let q :=
      if l ≥ 50 then
        let m1 := medianAdjacent less xs i 0
        let m2 := medianAdjacent less xs j m1.2
        let m3 := medianAdjacent less xs k m2.2
        (m1.1, m2.1, m3.1, m3.2)
      else (i, j, k, 0)
    let m := median3 less xs q.1 q.2.1 q.2.2.1 q.2.2.2
    if m.2 = 0 then (m.1, .increasing)
    else if m.2 = 12 then (m.1, .decreasing)
    else (m.1, .unknown)
  else (j, .increasing)

/-- pdqsort_func(data, a, b, limit): the iterative main loop with its two
balance flags as loop state; recursive calls restart with both flags true,
exactly as the Go locals are re-initialised on entry. -/
def pdqsortLoop (less : α → α → Bool) : Array α → Nat → Nat → Nat → Bool → Bool → Nat → Array α
  | xs, _, _, _, _, _, 0 => xs
  | xs, a, b, limit, wasBalanced, wasPartitioned, fuel + 1 =>
    let length := b - a
    if length ≤ 12 then insertionSortRange less xs a b
    else if limit = 0 then heapSortRange less xs a b
    else
      let p := if !wasBalanced then (breakPatternsGo xs a b, limit - 1) else (xs, limit)
      let xs := p.1
      let limit := p.2
      let cp := choosePivotGo less xs a b
      let q :=
        if cp.2 = SortedHint.decreasing then
          (reverseRangeGo xs a b, b - 1 - (cp.1 - a), SortedHint.increasing)
        else (xs, cp.1, cp.2)
      let xs := q.1
      let pivot := q.2.1
      let hint := q.2.2
      let r :=
        if wasBalanced && wasPartitioned && hint = SortedHint.increasing then
          partInsertionGo less xs a b
        else (xs, false)
      if r.2 then r.1
      else
        let xs := r.1
        if 0 < a && !(alessAt less xs (a - 1) pivot) then
          let pe := partitionEqualGo less xs a b pivot
          pdqsortLoop less pe.1 pe.2 b limit wasBalanced wasPartitioned fuel
        else
          let pt := partitionGo less xs a b pivot
          let xs := pt.1
          let mid := pt.2.1
          let wasPartitioned := pt.2.2
          let leftLen := mid - a
          let rightLen := b - mid
          let balanceThreshold := length / 8
          let wasBalanced := decide (min leftLen rightLen ≥ balanceThreshold)
          if leftLen < rightLen then
            let xs := pdqsortLoop less xs a mid limit true true fuel
            pdqsortLoop less xs (mid + 1) b limit wasBalanced wasPartitioned fuel
          else
            let xs := pdqsortLoop less xs (mid + 1) b limit true true fuel
            pdqsortLoop less xs a mid limit wasBalanced wasPartitioned fuel

/-- sort.Slice(x, less): length, bits.Len limit, pdqsort over the whole
slice. -/
def sortSlice (less : α → α → Bool) (xs : Array α) : Array α :=
  pdqsortLoop less xs 0 xs.size (bitsLen xs.size) true true (4 * xs.size + 16)

/-! ## Data model and collaborators

models.Post (the fields the AI service reads and writes), models.User, the
stored embedding chunks, and the repository / task queue the service talks
to.  The collaborators are embedded as an explicit world state; each fault
flag injects the error return of the corresponding interface method. -/

/-- models.Post, restricted to the fields the AI service uses. -/
structure Post where
  ID : String
  AuthorID : String
  AIChatOpen : Bool
  AIReady : Bool
  deriving Repr, DecidableEq

/-- models.User, restricted to the identity the AI service reads. -/
structure User where
  ID : String
  deriving Repr, DecidableEq

/-- A queued embedding job (post and triggering user). -/
structure EmbeddingJob where
  postID : String
  userID : String
  deriving Repr, DecidableEq

/-- Mutations the service can request from its collaborators, recorded in
order. -/
inductive RepoEvent where
  | update : Post → RepoEvent
  | deleteEmbeddings : String → RepoEvent
  | enqueue : EmbeddingJob → RepoEvent
  deriving Repr, DecidableEq

/-- The state behind PostRepositoryInterface and TaskEnqueuer: the post
table, the per-post embedding rows (post id with chunk content), the job
queue, and the ordered trace of performed mutations. -/
structure World where
  posts : List Post
  embeddings : List (String × String)
  queue : List EmbeddingJob
  trace : List RepoEvent
  deriving Repr, DecidableEq

/-- Injectable collaborator failures, one per interface call the service
makes. -/
structure RepoFaults where
  getByIDFails : Bool
  updateFails : Bool
  deleteFails : Bool
  enqueueFails : Bool
  deriving Repr, DecidableEq

/-- PosRepo.GetByID: the post with the given id, nil when absent, or an
error. -/
def repoGetByID (f : RepoFaults) (w : World) (postID : String) : Except String (Option Post) :=
  if f.getByIDFails then .error "db error"
  else .ok (w.posts.find? (fun p => p.ID == postID))

/-- PosRepo.Update: persist the given post record. -/
def repoUpdate (f : RepoFaults) (w : World) (p : Post) : Except String World :=
  if f.updateFails then .error "db error"
  else .ok { w with
    posts := w.posts.map (fun q => if q.ID == p.ID then p else q)
    trace := w.trace ++ [.update p] }

/-- PosRepo.DeleteEmbeddingsByPostID: drop every chunk of the post. -/
def repoDeleteEmbeddingsByPostID (f : RepoFaults) (w : World) (postID : String) :
    Except String World :=
  if f.deleteFails then .error "db error"
  else .ok { w with
    embeddings := w.embeddings.filter (fun e => !(e.1 == postID))
    trace := w.trace ++ [.deleteEmbeddings postID] }

/-- TaskEnqueuer.EnqueuePostEmbedding: append one job for the post and
user. -/
def enqueuePostEmbedding (f : RepoFaults) (w : World) (p : Post) (u : User) :
    Except String World :=
  if f.enqueueFails then .error "queue error"
  else .ok { w with
    queue := w.queue ++ [⟨p.ID, u.ID⟩]
    trace := w.trace ++ [.enqueue ⟨p.ID, u.ID⟩] }

/-! ## OpenAIMode and DisableOpenAIMode -/

/-- AIService.OpenAIMode: fetch the post; silently no-op when it is
missing, chat is already open, or the caller is not the author; otherwise
enqueue one embedding job.  Returns the Go pair (bool, error) as
`Except String Bool`, together with the world after the call. -/
def OpenAIMode (f : RepoFaults) (w : World) (postID : String) (userData : User) :
    Except String Bool × World :=
  match repoGetByID f w postID with
  | .error e => (.error e, w)
  | .ok none => (.ok false, w)
  | .ok (some post) =>
    if post.AIChatOpen then (.ok false, w)
    else if post.AuthorID ≠ userData.ID then (.ok false, w)
    else
      match enqueuePostEmbedding f w post userData with
      | .error e => (.error e, w)
      | .ok w2 => (.ok true, w2)

/-- AIService.DisableOpenAIMode: same no-op rules; on the mutation path it
clears both flags, persists the post, then deletes the post's chunks. -/
def DisableOpenAIMode (f : RepoFaults) (w : World) (postID : String) (userData : User) :
    Except String Bool × World :=
  match repoGetByID f w postID with
  | .error e => (.error e, w)
  | .ok none => (.ok false, w)
  | .ok (some post) =>
    if !post.AIChatOpen then (.ok false, w)
    else if post.AuthorID ≠ userData.ID then (.ok false, w)
    else
      let post2 := { post with AIChatOpen := false, AIReady := false }
      match repoUpdate f w post2 with
      | .error e => (.error e, w)
      | .ok w1 =>
        match repoDeleteEmbeddingsByPostID f w1 postID with
        | .error e => (.error e, w1)
        | .ok w2 => (.ok true, w2)

/-! ## Cosine similarity (pkg/utils)

The repository's pkg/utils sources are not part of the embedded tree, so
the function is modelled from the specification over the real numbers. -/

/-- Dot product of two numeric vectors, over the common prefix. -/
noncomputable def dotProduct (a b : List ℝ) : ℝ :=
  (List.zipWith (fun x y => x * y) a b).sum

/-- Magnitude (Euclidean norm) of a numeric vector. -/
noncomputable def magnitude (a : List ℝ) : ℝ :=
  Real.sqrt (dotProduct a a)

open scoped Classical in
/-- Modelled from the spec: utils.CosineSimilarity (whose source file is
outside the embedded tree) computes "the dot product divided by the
product of magnitudes; defined as 0 when either vector has zero magnitude
to avoid division by zero".  Real-valued model of the float64 function. -/
noncomputable def CosineSimilarity (a b : List ℝ) : ℝ :=
  if magnitude a = 0 ∨ magnitude b = 0 then 0
  else dotProduct a b / (magnitude a * magnitude b)

/-! ## StreamAIResponse -/

/-- The outcome of the http.Post call in StreamAIResponse: either the POST
itself failed, or a response arrived carrying a status code and the
newline-terminated lines the body reader will deliver before its first
read error (bufio's ReadBytes; the service drops the line returned
together with a read error, so only these lines are ever processed). -/
structure HttpResponse where
  statusCode : Nat
  lines : List String
  deriving Repr, DecidableEq

/-- The only error StreamAIResponse can return: the POST failing. -/
inductive StreamErr where
  | postFailed
  deriving Repr, DecidableEq

/-- Model of json.Marshal for one string: the escaping Go's encoder
applies (quotes, backslashes, control characters, and HTML-unsafe
characters as \uXXXX). -/
def goEscapeChar (c : Char) : String :=
  if c = '"' then "\\\""
  else if c = '\\' then "\\\\"
  else if c = '\n' then "\\n"
  else if c = '\r' then "\\r"
  else if c = '\t' then "\\t"
  else if c = '<' then "\\u003c"
  else if c = '>' then "\\u003e"
  else if c = '&' then "\\u0026"
  else if c.toNat < 32 then
    "\\u00" ++ String.mk [(Nat.toDigits 16 c.toNat).headI] ++
      String.mk [(Nat.toDigits 16 (c.toNat % 16)).headI]
  else String.singleton c

/-- Model of json.Marshal applied to the one-key map carrying the text
fragment: the minimal re-encoded object the service hands to onChunk. -/
def marshalTextObj (content : String) : String :=
  "\x7b\"text\":\"" ++ String.join (content.data.map goEscapeChar) ++ "\"\x7d"

/-- bytes.HasPrefix(line, []byte("data: ")). -/
def hasDataMarker (line : String) : Bool :=
  "data: ".data.isPrefixOf line.data

/-- line[6:]: the payload bytes after the "data: " marker. -/
def dropMarker (line : String) : String :=
  String.mk (line.data.drop 6)

/-- The per-line processing of StreamAIResponse's read loop: lines without
the "data: " marker are ignored; an empty payload and the [DONE] sentinel
produce nothing; payloads that fail to unmarshal are skipped; a payload
whose "message" member is an object carrying a string "content" yields the
re-encoded fragment passed to onChunk. -/
def processDataLine (line : String) : Option String :=
  if hasDataMarker line then
    let raw := trimSpace (dropMarker line)
    if raw = "" then none
    else if raw = "[DONE]" then none
    else
      match Json.parse raw with
      | none => none
      | some j =>
        match jsonAsMap j with
        | none => none
        | some chunk =>
          match lookupField chunk "message" with
          | some (Json.obj message) =>
            match lookupField message "content" with
            | some (Json.str content) => some (marshalTextObj content)
            | _ => none
          | _ => none
  else none

/-- StreamAIResponse(context, question, onChunk): posts the generation
request; if the POST fails that error is returned, otherwise every
successfully read line is processed in arrival order and nil is returned.
The pair collects the error result and the arguments of the onChunk
invocations in order. -/
def StreamAIResponse (httpResult : Option HttpResponse) (context question : String) :
    Option StreamErr × List String :=
  match httpResult with
  | none => (some .postFailed, [])
  | some resp => (none, resp.lines.filterMap processDataLine)

/-! ## ChatStream -/

/-- A stored chunk row (models.Embedding): content and its vector. -/
structure EmbeddingChunk where
  Content : String
  Vector : List ℝ

/-- The transient scored chunk of ChatStream's retrieval step. -/
structure ScoredChunk where
  Text : String
  Score : ℝ

open scoped Classical in
/-- The comparator ChatStream passes to sort.Slice:
scoredChunks[i].Score > scoredChunks[j].Score. -/
noncomputable def scoreGreater (x y : ScoredChunk) : Bool :=
  decide (x.Score > y.Score)

/-- The fixed fallback sentence used when the joined context is empty. -/
def noContextFallback : String :=
  "There is no relevant information from the document. Answer the question as best as you can or inform the user you cannot answer."

/-- Context assembly of ChatStream: keep the first three texts of the
sorted chunk list (i < 3 && i < len(scoredChunks)), join them with a
blank line, and substitute the fallback sentence for an empty join. -/
def buildContext (texts : List String) : String :=
  let fullContext := String.intercalate "\n\n" (texts.take 3)
  if fullContext = "" then noContextFallback else fullContext

/-- json.Unmarshal([]byte(prompt), &req) for the AskRequest struct: the
top level must be an object (or null); a "question" member must be a
string; an absent member leaves the zero value "". -/
def parseAskRequest (prompt : String) : Except String String :=
  match Json.parse prompt with
  | none => .error "invalid request body"
  | some (.obj fields) =>
    match lookupField fields "question" with
    | some (.str q) => .ok q
    | some _ => .error "cannot unmarshal question"
    | none => .ok ""
  | some .null => .ok ""
  | some _ => .error "cannot unmarshal request"

/-- The distinct error returns of ChatStream. -/
inductive ChatErr where
  | parseError
  | notAvailable
  | embeddingError : String → ChatErr
  | chunksError : String → ChatErr
  | generationPostError
  deriving Repr, DecidableEq

/-- What one ChatStream call produced: its error return, the onChunk
invocations in order, and the (context, question) pair handed to
StreamAIResponse when execution reached the generation call. -/
structure ChatResult where
  error : Option ChatErr
  fragments : List String
  generationCall : Option (String × String)
  deriving Repr, DecidableEq

/-- The collaborator responses one ChatStream call observes: the post
lookup, the embedding of the question, the stored chunks, and the
generation endpoint's response. -/
structure ChatEnv where
  postLookup : Except String (Option Post)
  questionEmbedding : Except String (List ℝ)
  storedChunks : Except String (List EmbeddingChunk)
  generation : Option HttpResponse

/-- AIService.ChatStream: parse the prompt (malformed is a hard error);
return the generic "post not found or AI not enabled" error when the
lookup errs, finds nothing, or finds a post with AIChatOpen false; embed
the question, score and sort the stored chunks, build the context from the
top three, and stream the generated answer. -/
noncomputable def ChatStream (env : ChatEnv) (postID : String) (userData : User)
    (prompt : String) : ChatResult :=
  match parseAskRequest prompt with
  | .error _ => { error := some .parseError, fragments := [], generationCall := none }
  | .ok question =>
    match env.postLookup with
    | .error _ => { error := some .notAvailable, fragments := [], generationCall := none }
    | .ok none => { error := some .notAvailable, fragments := [], generationCall := none }
    | .ok (some post) =>
      if !post.AIChatOpen then
        { error := some .notAvailable, fragments := [], generationCall := none }
      else
        match env.questionEmbedding with
        | .error e => { error := some (.embeddingError e), fragments := [], generationCall := none }
        | .ok questionEmbedding =>
          match env.storedChunks with
          | .error e => { error := some (.chunksError e), fragments := [], generationCall := none }
          | .ok chunks =>
            let scoredChunks := chunks.map (fun chunk =>
              { Text := chunk.Content
                Score := CosineSimilarity chunk.Vector questionEmbedding : ScoredChunk })
            let sorted := sortSlice scoreGreater scoredChunks.toArray
            let fullContext := buildContext (sorted.toList.map ScoredChunk.Text)
            let streamed := StreamAIResponse env.generation fullContext question
            { error := streamed.1.map (fun _ => .generationPostError)
              fragments := streamed.2
              generationCall := some (fullContext, question) }

/-! ## Concrete artifacts used by the verification -/

/-- A stream line carrying one well-formed fragment payload. -/
def validFragmentLine : String :=
  "data: \x7b\"message\":\x7b\"content\":\"Hello\"\x7d\x7d\n"

/-- A stream line whose payload is not valid JSON. -/
def malformedJsonLine : String :=
  "data: \x7bnot json\x7d\n"

/-- The end-of-stream sentinel line. -/
def doneSentinelLine : String :=
  "data: [DONE]\n"

/-- The sort.Slice comparator of ChatStream
(scoredChunks[i].Score > scoredChunks[j].Score) taken at exactly
representable similarity scores, with each chunk tagged by its original
position.  The scores 0 and 1 are exact float64 values (the score of a
zero-magnitude chunk, and of a chunk collinear with the question). -/
def scoreGreaterAt (x y : ℚ × Nat) : Bool :=
  decide (x.1 > y.1)

/-- Thirteen scored chunks in original order: chunk 6 scores 1, every
other chunk scores 0. -/
def tiedScoredChunks : Array (ℚ × Nat) :=
  #[(0, 0), (0, 1), (0, 2), (0, 3), (0, 4), (0, 5), (1, 6),
    (0, 7), (0, 8), (0, 9), (0, 10), (0, 11), (0, 12)]

/-! ## Theorems -/

/-- A dot product of a vector with itself is a sum of squares, hence
nonnegative. -/
lemma dotProduct_self_nonneg (a : List ℝ) : 0 ≤ dotProduct a a := by
  induction a with
  | nil => simp [dotProduct]
  | cons x xs ih =>
    have : dotProduct (x :: xs) (x :: xs) = x * x + dotProduct xs xs := by
      simp [dotProduct]
    rw [this]
    exact add_nonneg (mul_self_nonneg x) ih

/-- C7: CosineSimilarity divides the dot product by the product of the
magnitudes, returns 0 (not an undefined value) whenever either vector has
zero magnitude, and maps any vector of nonzero magnitude to similarity 1
with itself. -/
theorem CosineSimilarity_spec (a b : List ℝ) :
    (magnitude a = 0 ∨ magnitude b = 0 → CosineSimilarity a b = 0)
    ∧ (magnitude a ≠ 0 → magnitude b ≠ 0 →
        CosineSimilarity a b = dotProduct a b / (magnitude a * magnitude b))
    ∧ (magnitude a ≠ 0 → CosineSimilarity a a = 1) := by
  refine ⟨fun h => by simp [CosineSimilarity, h], fun ha hb => by
    simp [CosineSimilarity, ha, hb], fun ha => ?_⟩
  have hnn : 0 ≤ dotProduct a a := dotProduct_self_nonneg a
  have hsq : magnitude a * magnitude a = dotProduct a a := Real.mul_self_sqrt hnn
  have hd : dotProduct a a ≠ 0 := by
    intro h0
    apply ha
    simp [magnitude, h0]
  simp only [CosineSimilarity, ha, or_self, if_false, if_neg]
  rw [hsq]
  exact div_self hd

/-- Witness for CosineSimilarity_spec at the one-dimensional vector [1]. -/
theorem CosineSimilarity_spec_witness :
    magnitude [(1 : ℝ)] ≠ 0 ∧ CosineSimilarity [(1 : ℝ)] [(1 : ℝ)] = 1 := by
  have h : magnitude [(1 : ℝ)] ≠ 0 := by
    simp [magnitude, dotProduct]
  exact ⟨h, (CosineSimilarity_spec [(1 : ℝ)] [(1 : ℝ)]).2.2 h⟩

/-- C9: once the POST of StreamAIResponse has succeeded the call returns
nil for every response — any truncation of the line stream (a read error)
and any status code included — and only a failed POST yields an error. -/
theorem StreamAIResponse_error_contract :
    (∀ (resp : HttpResponse) (context question : String),
        (StreamAIResponse (some resp) context question).1 = none)
    ∧ (∀ (s1 s2 : Nat) (lines : List String) (context question : String),
        StreamAIResponse (some ⟨s1, lines⟩) context question
          = StreamAIResponse (some ⟨s2, lines⟩) context question)
    ∧ (∀ context question : String,
        StreamAIResponse none context question = (some .postFailed, [])) := by
  exact ⟨fun _ _ _ => rfl, fun _ _ _ _ _ => rfl, fun _ _ => rfl⟩

/-- Witness for StreamAIResponse_error_contract: a failed-status, empty
stream (zero fragments) still returns nil. -/
theorem StreamAIResponse_error_contract_witness :
    (StreamAIResponse (some ⟨500, []⟩) "c" "q").1 = none
    ∧ StreamAIResponse none "c" "q" = (some .postFailed, []) :=
  ⟨StreamAIResponse_error_contract.1 ⟨500, []⟩ "c" "q",
   StreamAIResponse_error_contract.2.2 "c" "q"⟩

/-- C2 (evaluated at the failing input): Go's sort.Slice, as called by
ChatStream, does not keep equal-score chunks in original order.  On
thirteen chunks with scores 0 except a single 1, the twelve tied chunks
come back in order 3, 2, 0, 4, 5, 1, 7, ..., not 0, 1, 2, 3, 4, 5, 7, ... -/
theorem sortSlice_reorders_equal_scores :
    sortSlice scoreGreaterAt tiedScoredChunks
      = #[(1, 6), (0, 3), (0, 2), (0, 0), (0, 4), (0, 5), (0, 1),
          (0, 7), (0, 8), (0, 9), (0, 10), (0, 11), (0, 12)]
    ∧ (sortSlice scoreGreaterAt tiedScoredChunks)[1]? = some (0, 3)
    ∧ (sortSlice scoreGreaterAt tiedScoredChunks)[2]? = some (0, 2) := by
  refine ⟨by decide, by decide, by decide⟩

/-- C3: the line protocol of StreamAIResponse.  Lines without the
"data: " marker are ignored; the [DONE] sentinel yields no fragment;
payloads that fail to parse are skipped and the loop keeps processing the
remaining lines; every parsed payload whose nested message object carries
a string content yields exactly one fragment, and fragments appear in
arrival order; the three-line valid/malformed/[DONE] stream yields exactly
one onChunk call, for the valid line. -/
theorem StreamAIResponse_line_protocol :
    (∀ line : String, hasDataMarker line = false → processDataLine line = none)
    ∧ (∀ line : String, hasDataMarker line = true →
        trimSpace (dropMarker line) = "[DONE]" → processDataLine line = none)
    ∧ (∀ line : String, hasDataMarker line = true →
        Json.parse (trimSpace (dropMarker line)) = none → processDataLine line = none)
    ∧ (∀ (st : Nat) (pre post : List String) (line c q : String),
        processDataLine line = none →
        StreamAIResponse (some ⟨st, pre ++ line :: post⟩) c q
          = (none, pre.filterMap processDataLine ++ post.filterMap processDataLine))
    ∧ (∀ (line content : String) (chunk message : List (String × Json)),
        hasDataMarker line = true →
        Json.parse (trimSpace (dropMarker line)) = some (Json.obj chunk) →
        lookupField chunk "message" = some (Json.obj message) →
        lookupField message "content" = some (Json.str content) →
        processDataLine line = some (marshalTextObj content))
    ∧ (∀ (st : Nat) (lines : List String) (c q : String),
        (StreamAIResponse (some ⟨st, lines⟩) c q).2 = lines.filterMap processDataLine)
    ∧ StreamAIResponse
        (some ⟨200, [validFragmentLine, malformedJsonLine, doneSentinelLine]⟩) "ctx" "q"
        = (none, [marshalTextObj "Hello"]) := by
  refine ⟨?_, ?_, ?_, ?_, ?_, fun _ _ _ _ => rfl, rfl⟩
  · intro line h
    simp [processDataLine, h]
  · intro line h1 h2
    simp [processDataLine, h1, h2]
  · intro line h1 h2
    by_cases h0 : trimSpace (dropMarker line) = ""
    · simp [processDataLine, h1, h0]
    · by_cases hd : trimSpace (dropMarker line) = "[DONE]"
      · simp [processDataLine, h1, h0, hd]
      · simp [processDataLine, h1, h0, hd, h2]
  · intro st pre post line c q h
    simp [StreamAIResponse, List.filterMap_append, h]
  · intro line content chunk message h1 h2 h3 h4
    have h0 : trimSpace (dropMarker line) ≠ "" := by
      intro he
      rw [he] at h2
      exact Option.noConfusion ((show Json.parse "" = none from rfl) ▸ h2)
    have hd : trimSpace (dropMarker line) ≠ "[DONE]" := by
      intro he
      rw [he] at h2
      exact Option.noConfusion ((show Json.parse "[DONE]" = none from rfl) ▸ h2)
    simp [processDataLine, h1, h0, hd, h2, jsonAsMap, h3, h4]

/-- Witness for StreamAIResponse_line_protocol at concrete lines. -/
theorem StreamAIResponse_line_protocol_witness :
    processDataLine "event: x\n" = none
    ∧ processDataLine doneSentinelLine = none
    ∧ processDataLine malformedJsonLine = none
    ∧ StreamAIResponse (some ⟨200, [malformedJsonLine, validFragmentLine]⟩) "c" "q"
        = (none, [marshalTextObj "Hello"])
    ∧ processDataLine validFragmentLine = some (marshalTextObj "Hello") :=
  ⟨StreamAIResponse_line_protocol.1 "event: x\n" rfl,
   StreamAIResponse_line_protocol.2.1 doneSentinelLine rfl rfl,
   StreamAIResponse_line_protocol.2.2.1 malformedJsonLine rfl rfl,
   StreamAIResponse_line_protocol.2.2.2.1 200 [] [validFragmentLine]
     malformedJsonLine "c" "q" rfl,
   StreamAIResponse_line_protocol.2.2.2.2.1 validFragmentLine "Hello"
     [("message", Json.obj [("content", Json.str "Hello")])]
     [("content", Json.str "Hello")] rfl rfl rfl rfl⟩

/-- C5: with the lookup and the queue healthy, OpenAIMode returns
(false, nil) and leaves the world untouched exactly when the post is
missing, chat is already open, or the caller is not the author; in every
other case it returns (true, nil) and enqueues exactly one embedding
job. -/
theorem OpenAIMode_gating (f : RepoFaults) (w : World) (postID : String) (u : User)
    (hget : f.getByIDFails = false) (henq : f.enqueueFails = false) :
    ((OpenAIMode f w postID u = (.ok false, w)) ↔
      (w.posts.find? (fun p => p.ID == postID) = none
        ∨ ∃ p, w.posts.find? (fun q => q.ID == postID) = some p
            ∧ (p.AIChatOpen = true ∨ p.AuthorID ≠ u.ID)))
    ∧ (∀ p, w.posts.find? (fun q => q.ID == postID) = some p →
        p.AIChatOpen = false → p.AuthorID = u.ID →
        OpenAIMode f w postID u
          = (.ok true, { w with queue := w.queue ++ [⟨p.ID, u.ID⟩],
                                trace := w.trace ++ [.enqueue ⟨p.ID, u.ID⟩] })) := by
  constructor
  · constructor
    · intro h
      rcases hfind : w.posts.find? (fun q => q.ID == postID) with _ | p
      · exact Or.inl hfind
      · refine Or.inr ⟨p, hfind, ?_⟩
        by_contra hneg
        push_neg at hneg
        obtain ⟨hopen, hauth⟩ := hneg
        have hopen2 : p.AIChatOpen = false := by
          simpa using hopen
        rw [OpenAIMode] at h
        simp [repoGetByID, hget, hfind, hopen2, hauth, enqueuePostEmbedding, henq] at h
    · intro h
      rcases h with hnone | ⟨p, hp, hcase⟩
      · simp [OpenAIMode, repoGetByID, hget, hnone]
      · rcases hcase with hopen | hauth
        · simp [OpenAIMode, repoGetByID, hget, hp, hopen]
        · by_cases hopen : p.AIChatOpen
          · simp [OpenAIMode, repoGetByID, hget, hp, hopen]
          · simp [OpenAIMode, repoGetByID, hget, hp, hopen, hauth]
  · intro p hp hopen hauth
    simp [OpenAIMode, repoGetByID, hget, hp, hopen, hauth, enqueuePostEmbedding, henq]

/-- Witness for OpenAIMode_gating: a second enable on an already-open post
is a silent no-op, and an enable by the author of a closed post enqueues
one job. -/
theorem OpenAIMode_gating_witness :
    OpenAIMode ⟨false, false, false, false⟩
        ⟨[⟨"p1", "u1", true, true⟩], [], [], []⟩ "p1" ⟨"u1"⟩
      = (.ok false, ⟨[⟨"p1", "u1", true, true⟩], [], [], []⟩)
    ∧ OpenAIMode ⟨false, false, false, false⟩
        ⟨[⟨"p2", "u1", false, false⟩], [], [], []⟩ "p2" ⟨"u1"⟩
      = (.ok true, ⟨[⟨"p2", "u1", false, false⟩], [], [⟨"p2", "u1"⟩],
                    [.enqueue ⟨"p2", "u1"⟩]⟩) :=
  ⟨(OpenAIMode_gating ⟨false, false, false, false⟩
      ⟨[⟨"p1", "u1", true, true⟩], [], [], []⟩ "p1" ⟨"u1"⟩ rfl rfl).1.mpr
      (Or.inr ⟨⟨"p1", "u1", true, true⟩, rfl, Or.inl rfl⟩),
   (OpenAIMode_gating ⟨false, false, false, false⟩
      ⟨[⟨"p2", "u1", false, false⟩], [], [], []⟩ "p2" ⟨"u1"⟩ rfl rfl).2
      ⟨"p2", "u1", false, false⟩ rfl rfl rfl⟩

/-- C8: on OpenAIMode's success path the only side effect is the enqueued
job: the post table and the chunk rows are untouched and the mutation
trace records exactly the one enqueue. -/
theorem OpenAIMode_frame (f : RepoFaults) (w : World) (postID : String) (u : User)
    (p : Post)
    (hget : f.getByIDFails = false) (henq : f.enqueueFails = false)
    (hp : w.posts.find? (fun q => q.ID == postID) = some p)
    (hopen : p.AIChatOpen = false) (hauth : p.AuthorID = u.ID) :
    (OpenAIMode f w postID u).1 = .ok true
    ∧ (OpenAIMode f w postID u).2.posts = w.posts
    ∧ (OpenAIMode f w postID u).2.embeddings = w.embeddings
    ∧ (OpenAIMode f w postID u).2.queue = w.queue ++ [⟨p.ID, u.ID⟩]
    ∧ (OpenAIMode f w postID u).2.trace = w.trace ++ [.enqueue ⟨p.ID, u.ID⟩] := by
  simp [OpenAIMode, repoGetByID, hget, hp, hopen, hauth, enqueuePostEmbedding, henq]

/-- Witness for OpenAIMode_frame at a concrete world. -/
theorem OpenAIMode_frame_witness :
    (OpenAIMode ⟨false, false, false, false⟩
        ⟨[⟨"p2", "u1", false, false⟩], [("p2", "c")], [], []⟩ "p2" ⟨"u1"⟩).2.posts
      = [⟨"p2", "u1", false, false⟩]
    ∧ (OpenAIMode ⟨false, false, false, false⟩
        ⟨[⟨"p2", "u1", false, false⟩], [("p2", "c")], [], []⟩ "p2" ⟨"u1"⟩).2.queue
      = [⟨"p2", "u1"⟩] :=
  ⟨(OpenAIMode_frame ⟨false, false, false, false⟩
      ⟨[⟨"p2", "u1", false, false⟩], [("p2", "c")], [], []⟩ "p2" ⟨"u1"⟩
      ⟨"p2", "u1", false, false⟩ rfl rfl rfl rfl rfl).2.1,
   (OpenAIMode_frame ⟨false, false, false, false⟩
      ⟨[⟨"p2", "u1", false, false⟩], [("p2", "c")], [], []⟩ "p2" ⟨"u1"⟩
      ⟨"p2", "u1", false, false⟩ rfl rfl rfl rfl rfl).2.2.2.1⟩

/-- C4: DisableOpenAIMode on the author's open post clears both flags,
persists the post, then deletes the post's chunks, in that order; when the
chunk deletion fails the call errors but the persisted flag update is not
rolled back. -/
theorem DisableOpenAIMode_effects (w : World) (postID : String) (u : User) (p : Post)
    (hp : w.posts.find? (fun q => q.ID == postID) = some p)
    (hopen : p.AIChatOpen = true) (hauth : p.AuthorID = u.ID) :
    (∀ f : RepoFaults, f.getByIDFails = false → f.updateFails = false →
      f.deleteFails = false →
      DisableOpenAIMode f w postID u
        = (.ok true,
           { posts := w.posts.map (fun q =>
               if q.ID == p.ID then { p with AIChatOpen := false, AIReady := false } else q)
             embeddings := w.embeddings.filter (fun e => !(e.1 == postID))
             queue := w.queue
             trace := w.trace
               ++ [.update { p with AIChatOpen := false, AIReady := false },
                   .deleteEmbeddings postID] }))
    ∧ (∀ f : RepoFaults, f.getByIDFails = false → f.updateFails = false →
        f.deleteFails = true →
        (∃ e, (DisableOpenAIMode f w postID u).1 = .error e)
        ∧ (DisableOpenAIMode f w postID u).2.posts
            = w.posts.map (fun q =>
                if q.ID == p.ID then { p with AIChatOpen := false, AIReady := false } else q)
        ∧ (DisableOpenAIMode f w postID u).2.trace
            = w.trace ++ [.update { p with AIChatOpen := false, AIReady := false }]) := by
  constructor
  · intro f hget hupd hdel
    simp [DisableOpenAIMode, repoGetByID, hget, hp, hopen, hauth, repoUpdate, hupd,
      repoDeleteEmbeddingsByPostID, hdel]
  · intro f hget hupd hdel
    refine ⟨⟨"db error", ?_⟩, ?_, ?_⟩ <;>
      simp [DisableOpenAIMode, repoGetByID, hget, hp, hopen, hauth, repoUpdate, hupd,
        repoDeleteEmbeddingsByPostID, hdel]

/-- Witness for DisableOpenAIMode_effects: the success path and the
chunk-deletion-failure path at a concrete world. -/
theorem DisableOpenAIMode_effects_witness :
    DisableOpenAIMode ⟨false, false, false, false⟩
        ⟨[⟨"p1", "u1", true, true⟩], [("p1", "c")], [], []⟩ "p1" ⟨"u1"⟩
      = (.ok true, ⟨[⟨"p1", "u1", false, false⟩], [], [],
                    [.update ⟨"p1", "u1", false, false⟩, .deleteEmbeddings "p1"]⟩)
    ∧ (DisableOpenAIMode ⟨false, false, true, false⟩
        ⟨[⟨"p1", "u1", true, true⟩], [("p1", "c")], [], []⟩ "p1" ⟨"u1"⟩).2.posts
      = [⟨"p1", "u1", false, false⟩] :=
  ⟨(DisableOpenAIMode_effects ⟨[⟨"p1", "u1", true, true⟩], [("p1", "c")], [], []⟩
      "p1" ⟨"u1"⟩ ⟨"p1", "u1", true, true⟩ rfl rfl rfl).1
      ⟨false, false, false, false⟩ rfl rfl rfl,
   ((DisableOpenAIMode_effects ⟨[⟨"p1", "u1", true, true⟩], [("p1", "c")], [], []⟩
      "p1" ⟨"u1"⟩ ⟨"p1", "u1", true, true⟩ rfl rfl rfl).2
      ⟨false, false, true, false⟩ rfl rfl rfl).2.1⟩

/-- The substituted fallback keeps the built context nonempty for every
input. -/
lemma buildContext_ne_empty (texts : List String) : buildContext texts ≠ "" := by
  unfold buildContext
  by_cases h : String.intercalate "\n\n" (texts.take 3) = ""
  · simp only [h, if_pos]
    decide
  · simp only [h, if_neg, if_false]
    exact h

/-- C1: for a well-formed payload and a non-erring lookup, ChatStream
returns the "not available" error — with zero onChunk invocations and no
generation call — exactly when the post is missing or AIChatOpen is
false; a post with AIChatOpen true and AIReady false is not rejected but
proceeds to retrieval and generation. -/
theorem ChatStream_gating (env : ChatEnv) (postID : String) (u : User)
    (prompt q : String)
    (hparse : parseAskRequest prompt = .ok q)
    (hok : ∃ r, env.postLookup = .ok r) :
    (((ChatStream env postID u prompt).error = some .notAvailable) ↔
      (env.postLookup = .ok none
        ∨ ∃ p, env.postLookup = .ok (some p) ∧ p.AIChatOpen = false))
    ∧ ((ChatStream env postID u prompt).error = some .notAvailable →
        (ChatStream env postID u prompt).fragments = []
        ∧ (ChatStream env postID u prompt).generationCall = none)
    ∧ (∀ p qe chunks, env.postLookup = .ok (some p) → p.AIChatOpen = true →
        p.AIReady = false →
        env.questionEmbedding = .ok qe → env.storedChunks = .ok chunks →
        (ChatStream env postID u prompt).error ≠ some .notAvailable
        ∧ (ChatStream env postID u prompt).generationCall.isSome = true) := by
  obtain ⟨r, hr⟩ := hok
  rcases r with _ | p
  · refine ⟨?_, ?_, ?_⟩
    · simp [ChatStream, hparse, hr]
    · intro _
      simp [ChatStream, hparse, hr]
    · intro p _ _ hps _ _ _ _
      rw [hr] at hps
      exact absurd hps (by simp)
  · cases hopen : p.AIChatOpen with
    | false =>
      refine ⟨?_, ?_, ?_⟩
      · simp [ChatStream, hparse, hr, hopen]
      · intro _
        simp [ChatStream, hparse, hr, hopen]
      · intro p' _ _ hps hopen' _ _ _
        rw [hr] at hps
        have : p = p' := by
          simpa using hps
        rw [this, hopen'] at hopen
        exact absurd hopen (by simp)
    | true =>
      rcases he : env.questionEmbedding with e | qe
      · refine ⟨?_, ?_, ?_⟩
        · simp [ChatStream, hparse, hr, hopen, he]
        · intro herr
          simp [ChatStream, hparse, hr, hopen, he] at herr
        · intro p' qe _ _ _ _ he' _
          exact absurd he' (by simp)
      · rcases hc : env.storedChunks with e | chunks
        · refine ⟨?_, ?_, ?_⟩
          · simp [ChatStream, hparse, hr, hopen, he, hc]
          · intro herr
            simp [ChatStream, hparse, hr, hopen, he, hc] at herr
          · intro p' qe' chunks' _ _ _ _ hc'
            exact absurd hc' (by simp)
        · rcases hg : env.generation with _ | resp
          · refine ⟨?_, ?_, ?_⟩
            · simp [ChatStream, hparse, hr, hopen, he, hc, hg, StreamAIResponse]
            · intro herr
              simp [ChatStream, hparse, hr, hopen, he, hc, hg, StreamAIResponse] at herr
            · intro p' qe' chunks' _ _ _ _ _
              simp [ChatStream, hparse, hr, hopen, he, hc, hg, StreamAIResponse]
          · refine ⟨?_, ?_, ?_⟩
            · simp [ChatStream, hparse, hr, hopen, he, hc, hg, StreamAIResponse]
            · intro herr
              simp [ChatStream, hparse, hr, hopen, he, hc, hg, StreamAIResponse] at herr
            · intro p' qe' chunks' _ _ _ _ _
              simp [ChatStream, hparse, hr, hopen, he, hc, hg, StreamAIResponse]

/-- Witness for ChatStream_gating: a post with chat open and embeddings
not ready, an empty chunk store and a well-formed question reaches the
generation call. -/
theorem ChatStream_gating_witness :
    parseAskRequest "\x7b\"question\":\"hi\"\x7d" = .ok "hi"
    ∧ (ChatStream ⟨.ok (some ⟨"p1", "u1", true, false⟩), .ok [1], .ok [],
          some ⟨200, []⟩⟩ "p1" ⟨"u2"⟩ "\x7b\"question\":\"hi\"\x7d").error
        ≠ some .notAvailable
    ∧ (ChatStream ⟨.ok (some ⟨"p1", "u1", true, false⟩), .ok [1], .ok [],
          some ⟨200, []⟩⟩ "p1" ⟨"u2"⟩ "\x7b\"question\":\"hi\"\x7d").generationCall.isSome
        = true :=
  ⟨rfl,
   ((ChatStream_gating ⟨.ok (some ⟨"p1", "u1", true, false⟩), .ok [1], .ok [],
        some ⟨200, []⟩⟩ "p1" ⟨"u2"⟩ "\x7b\"question\":\"hi\"\x7d" "hi" rfl
        ⟨some ⟨"p1", "u1", true, false⟩, rfl⟩).2.2
      ⟨"p1", "u1", true, false⟩ [1] [] rfl rfl rfl rfl rfl).1,
   ((ChatStream_gating ⟨.ok (some ⟨"p1", "u1", true, false⟩), .ok [1], .ok [],
        some ⟨200, []⟩⟩ "p1" ⟨"u2"⟩ "\x7b\"question\":\"hi\"\x7d" "hi" rfl
        ⟨some ⟨"p1", "u1", true, false⟩, rfl⟩).2.2
      ⟨"p1", "u1", true, false⟩ [1] [] rfl rfl rfl rfl rfl).2⟩

/-- C10: when the post lookup itself errs, ChatStream swallows the
storage error and returns the same generic "post not found or AI not
enabled" error as for a missing post — the whole result is
indistinguishable. -/
theorem ChatStream_lookup_error_masked (env : ChatEnv) (postID : String) (u : User)
    (prompt q e : String) (hparse : parseAskRequest prompt = .ok q) :
    (ChatStream { env with postLookup := .error e } postID u prompt).error
      = some .notAvailable
    ∧ (ChatStream { env with postLookup := .ok none } postID u prompt).error
      = some .notAvailable
    ∧ ChatStream { env with postLookup := .error e } postID u prompt
      = ChatStream { env with postLookup := .ok none } postID u prompt := by
  refine ⟨?_, ?_, ?_⟩ <;> simp [ChatStream, hparse]

/-- Witness for ChatStream_lookup_error_masked at a concrete environment. -/
theorem ChatStream_lookup_error_masked_witness :
    (ChatStream ⟨.error "db down", .ok [1], .ok [], some ⟨200, []⟩⟩
        "p1" ⟨"u2"⟩ "\x7b\"question\":\"hi\"\x7d").error = some .notAvailable
    ∧ ChatStream ⟨.error "db down", .ok [1], .ok [], some ⟨200, []⟩⟩
        "p1" ⟨"u2"⟩ "\x7b\"question\":\"hi\"\x7d"
      = ChatStream ⟨.ok none, .ok [1], .ok [], some ⟨200, []⟩⟩
        "p1" ⟨"u2"⟩ "\x7b\"question\":\"hi\"\x7d" :=
  ⟨(ChatStream_lookup_error_masked ⟨.ok none, .ok [1], .ok [], some ⟨200, []⟩⟩
      "p1" ⟨"u2"⟩ "\x7b\"question\":\"hi\"\x7d" "hi" "db down" rfl).1,
   (ChatStream_lookup_error_masked ⟨.ok none, .ok [1], .ok [], some ⟨200, []⟩⟩
      "p1" ⟨"u2"⟩ "\x7b\"question\":\"hi\"\x7d" "hi" "db down" rfl).2.2⟩

/-- C6: ChatStream's generation context takes the first three texts of the
sorted chunks and joins them with a blank line; the empty join — in
particular the no-chunk case — is replaced by the fixed fallback sentence,
so the context handed to generation is never the empty string. -/
theorem ChatStream_context_construction :
    buildContext [] = noContextFallback
    ∧ (∀ texts : List String, buildContext texts ≠ "")
    ∧ (∀ texts : List String, String.intercalate "\n\n" (texts.take 3) ≠ "" →
        buildContext texts = String.intercalate "\n\n" (texts.take 3))
    ∧ (∀ (env : ChatEnv) (postID : String) (u : User) (prompt ctx q : String),
        (ChatStream env postID u prompt).generationCall = some (ctx, q) → ctx ≠ "")
    ∧ (∀ (env : ChatEnv) (postID : String) (u : User) (prompt q : String)
        (p : Post) (qe : List ℝ) (chunks : List EmbeddingChunk),
        parseAskRequest prompt = .ok q → env.postLookup = .ok (some p) →
        p.AIChatOpen = true →
        env.questionEmbedding = .ok qe → env.storedChunks = .ok chunks →
        (ChatStream env postID u prompt).generationCall
          = some (buildContext
              ((sortSlice scoreGreater
                  ((chunks.map (fun chunk =>
                    { Text := chunk.Content
                      Score := CosineSimilarity chunk.Vector qe : ScoredChunk })).toArray)).toList.map
                ScoredChunk.Text), q)) := by
  refine ⟨rfl, buildContext_ne_empty, ?_, ?_, ?_⟩
  · intro texts h
    simp [buildContext, h]
  · intro env postID u prompt ctx q h
    rcases hp : parseAskRequest prompt with e | question
    · simp [ChatStream, hp] at h
    · rcases hr : env.postLookup with e | r
      · simp [ChatStream, hp, hr] at h
      · rcases r with _ | post
        · simp [ChatStream, hp, hr] at h
        · cases hopen : post.AIChatOpen with
          | false => simp [ChatStream, hp, hr, hopen] at h
          | true =>
            rcases he : env.questionEmbedding with e | qe
            · simp [ChatStream, hp, hr, hopen, he] at h
            · rcases hc : env.storedChunks with e | chunks
              · simp [ChatStream, hp, hr, hopen, he, hc] at h
              · simp only [ChatStream, hp, hr, hopen, he, hc] at h
                have hctx : ctx = buildContext
                    ((sortSlice scoreGreater
                        ((chunks.map (fun chunk =>
                          { Text := chunk.Content
                            Score := CosineSimilarity chunk.Vector qe : ScoredChunk })).toArray)).toList.map
                      ScoredChunk.Text) := by
                  simp at h
                  exact h.1.symm
                rw [hctx]
                exact buildContext_ne_empty _
  · intro env postID u prompt q p qe chunks hp hr hopen he hc
    simp [ChatStream, hp, hr, hopen, he, hc]

/-- Witness for ChatStream_context_construction: with no stored chunks the
generation call receives exactly the fallback sentence. -/
theorem ChatStream_context_construction_witness :
    buildContext ["a"] ≠ ""
    ∧ (ChatStream ⟨.ok (some ⟨"p1", "u1", true, false⟩), .ok [1], .ok [],
          some ⟨200, []⟩⟩ "p1" ⟨"u2"⟩ "\x7b\"question\":\"hi\"\x7d").generationCall
        = some (noContextFallback, "hi") :=
  ⟨ChatStream_context_construction.2.1 ["a"],
   ChatStream_context_construction.2.2.2.2 ⟨.ok (some ⟨"p1", "u1", true, false⟩),
      .ok [1], .ok [], some ⟨200, []⟩⟩ "p1" ⟨"u2"⟩ "\x7b\"question\":\"hi\"\x7d" "hi"
      ⟨"p1", "u1", true, false⟩ [1] [] rfl rfl rfl rfl rfl⟩
